import Mathlib

/-!
Shallow embedding of the news-copy backend (src/index.js): an Express app with
three endpoints (POST /indexar, POST /generate-copies, POST /buscar_similar)
orchestrating a content extractor, an embedding client (Hugging Face), a
similarity store (Pinecone), a generative model (Gemini) and a URL shortener
(Bitly).  External collaborators are modelled as explicit oracle functions
passed in an environment; a thrown/rejected outbound call is an `Except.error`.
Each handler is a pure function from its environment and request body to an
HTTP response together with the trace of outbound calls it performed.
-/

namespace NewsCopy

/-- JS truthiness of a string-or-undefined value: `!x` is true exactly when
`x` is `undefined` or the empty string. -/
def jsTruthy : Option String → Bool
  | none => false
  | some s => !s.isEmpty

/-- JS `x || y` on a string-or-undefined `x`: yields `y` when `x` is falsy
(undefined or empty), and `x` otherwise. -/
def jsOrStr (x : Option String) (y : String) : String :=
  match x with
  | none => y
  | some s => if s.isEmpty then y else s

/-- JS `String.prototype.trim()`: strip leading and trailing whitespace
(modelled structurally on the character list so it is kernel-executable). -/
def jsTrim (s : String) : String :=
  ⟨((s.data.dropWhile Char.isWhitespace).reverse.dropWhile Char.isWhitespace).reverse⟩

/-- A JSON-like value as returned by the Hugging Face feature-extraction
call (`hf.featureExtraction`).  The code inspects it only with
`Array.isArray`. -/
inductive HfValue where
  | num (x : Int)
  | str (s : String)
  | boolean (b : Bool)
  | null
  | arr (elems : List HfValue)

/-- `Array.isArray` on the modelled JSON value. -/
def HfValue.isArray : HfValue → Bool
  | .arr _ => true
  | _ => false

/-- Embeds `getEmbedding` (src/index.js:34-49).  The argument is the settled
result of `hf.featureExtraction` (`.error` models a rejected call).  The code
throws when the result is not an array; every failure is caught and re-thrown
as the generic embedding error. -/
def getEmbedding (hfResult : Except Unit HfValue) : Except String HfValue :=
  match hfResult with
  | .error _ => .error "Error generando embeddings."
  | .ok result =>
    if result.isArray then .ok result
    else .error "Error generando embeddings."

/-- Spec-side shape predicate, written from the spec's words for comparison
with the code (refinement check): a numeric-vector shape is a sequence of
numbers, or a sequence of sequences of numbers (from which the first row
would be taken). -/
def specNumericRow : HfValue → Bool
  | .arr elems => elems.all fun e => match e with | .num _ => true | _ => false
  | _ => false

/-- Spec-side predicate: the response shapes the spec allows the embedding
client to accept. -/
def specNumericVectorShape (v : HfValue) : Bool :=
  specNumericRow v ||
    (match v with
     | .arr elems => !elems.isEmpty && elems.all specNumericRow
     | _ => false)

/-- The metadata the code reads off a fetched HTML page: the two OpenGraph
meta tags it queries, plus the generic page-title element (which the code
never consults, but the spec mentions as a fallback).  A `none` field models
an absent tag/attribute (`attr` returned `undefined`). -/
structure HtmlMeta where
  ogTitle : Option String
  ogDescription : Option String
  pageTitle : Option String
deriving Repr, DecidableEq

/-- The extractor's successful result (title and page description). -/
structure ContentRecord where
  title : String
  description : String
deriving Repr, DecidableEq

/-- Embeds `getTitleAndDescription` (src/index.js:54-73).  The argument is
the fetched-and-parsed page; `none` models a failed HTTP fetch.  The code
reads `og:title` and `og:description`, throws when either is falsy, and
returns both trimmed; every failure is caught and re-thrown as the generic
extraction error. -/
def getTitleAndDescription (fetched : Option HtmlMeta) : Except String ContentRecord :=
  match fetched with
  | none => .error "No se pudo extraer los meta tags de la noticia."
  | some page =>
    if !(jsTruthy page.ogTitle) || !(jsTruthy page.ogDescription) then
      .error "No se pudo extraer los meta tags de la noticia."
    else
      .ok { title := jsTrim (page.ogTitle.getD "")
            description := jsTrim (page.ogDescription.getD "") }

/-- Embeds `shortenUrl` (src/index.js:76-103): the UTM-tagged long URL is
sent to Bitly; a failed call surfaces as the generic shortening error. -/
def shortenUrl (bitly : String → Except Unit String) (url : String) : Except String String :=
  let longUrlWithUtm := url ++ "?utm_source=whatsapp&utm_medium=social&utm_campaign=canal"
  match bitly longUrlWithUtm with
  | .error _ => .error "Hubo un error al acortar la URL."
  | .ok link => .ok link

/-- One part of a Gemini candidate content (`parts[i].text`). -/
structure GenPart where
  text : Option String
deriving Repr, DecidableEq

/-- A Gemini candidate content (`candidates[i].content`). -/
structure GenContent where
  parts : Option (List GenPart)
deriving Repr, DecidableEq

/-- A Gemini candidate. -/
structure GenCandidate where
  content : Option GenContent
deriving Repr, DecidableEq

/-- The Gemini response body (`resp.response`). -/
structure GenResponseBody where
  candidates : Option (List GenCandidate)
deriving Repr, DecidableEq

/-- The settled value of `model.generateContent(...)`. -/
structure GenResult where
  response : Option GenResponseBody
deriving Repr, DecidableEq

/-- The optional chain `resp.response?.candidates?.[0]?.content?.parts?.[0]?.text`. -/
def candidateText (r : GenResult) : Option String :=
  (((((r.response.bind GenResponseBody.candidates).bind List.head?).bind
      GenCandidate.content).bind GenContent.parts).bind List.head?).bind GenPart.text

/-- The full extraction expression `resp.response?... ?.text || "Texto no disponible"`:
the placeholder replaces an undefined or empty candidate text. -/
def extractTextOrDefault (r : GenResult) : String :=
  jsOrStr (candidateText r) "Texto no disponible"

/-- A convenient Gemini result carrying exactly one candidate with text `t`
(used to instantiate the oracles in concrete scenarios). -/
def mkGenResult (t : String) : GenResult :=
  { response := some { candidates := some [{ content := some { parts := some [{ text := some t }] } }] } }

/-- Metadata stored with / returned by a Pinecone match.  Both fields may be
absent on a returned match (`match.metadata?.copy || ""`). -/
structure MatchMetadata where
  noticia : Option String
  copy : Option String
deriving Repr, DecidableEq

/-- One Pinecone match. -/
structure PineMatch where
  id : String
  score : Int
  metadata : Option MatchMetadata
deriving Repr, DecidableEq

/-- A Pinecone query result; `matches` itself may be absent
(`results.matches?`). -/
structure QueryResults where
  «matches» : Option (List PineMatch)
deriving Repr

/-- An element of the `similares` array built in the generate flow:
an object with a single `copy` field. -/
structure SimilarCopy where
  copy : String
deriving Repr, DecidableEq

/-- `results.matches?.map((match) => ({ copy: match.metadata?.copy || "" })) || []`
(src/index.js:168-170). -/
def similaresOf (results : QueryResults) : List SimilarCopy :=
  (results.«matches».map (List.map fun m =>
    { copy := jsOrStr (m.metadata.bind MatchMetadata.copy) "" })).getD []

/-- The `referencesFb` block (src/index.js:174-182): empty when there are no
similar copies, otherwise a header followed by one numbered example per copy. -/
def referencesFbOf (similares : List SimilarCopy) : String :=
  if similares.length > 0 then
    "Aquí hay algunos ejemplos de Facebook copies anteriores:\n\n" ++
      String.intercalate "\n\n"
        (similares.enum.map fun p =>
          "Ejemplo " ++ Nat.repr (p.1 + 1) ++ ": \"" ++ p.2.copy ++ "\"")
  else ""

/-- The Facebook prompt template literal (src/index.js:186-197). -/
def fbPrompt (referencesFb title : String) : String :=
  "\n    Basándote en estos copies de Facebook (ejemplos), genera un título sobre la noticia que mencionaré al final.\n    Debe ser informativo y con un tono directo, pero también carismático y llamativo.\n    Breve y al grano, idealmente no más de 10 palabras. Incluye de 1 a 2 emojis\n    (pueden ir al principio, en medio, al final, o mixto, pero que sean respetuosos si el tema es sensible).\n    No omitas datos importantes. Toma en cuenta para contexto que la noticia es de El Heraldo de Chihuahua, por lo que puede que sea o no noticia local.\n    No respondas nada más que el copy que generarás.\n    \n    "
    ++ referencesFb ++
    "\n    \n    Este es el título de la noticia actual para generarle el copy: \"" ++ title ++ "\"\n    "

/-- The Twitter prompt template literal (src/index.js:209-214). -/
def twitterPrompt (combinedText : String) : String :=
  "\n    Genera un copy sobre la siguiente noticia, debe ser informativo y con un tono directo,\n    un solo emoji al final. Conciso y al grano, idealmente no más de 10 palabras ya que es para un tweet.\n    No omitas datos importantes. Toma en cuenta para contexto que la noticia es de El Heraldo de Chihuahua, por lo que puede que sea o no noticia local.\n    No respondas nada más que el copy: \"" ++ combinedText ++ "\"\n    "

/-- The WhatsApp prompt template literal (src/index.js:227-235). -/
def wppPrompt (combinedText : String) : String :=
  "\n    Genera un copy corto para la siguiente noticia. \n    Debe tener un título muy corto (no más de 10 palabras) seguido de un párrafo de máximo 2 renglones \n    describiendo un poco la noticia. Debe ser informativo y con un tono directo, \n    pero también carismático y llamativo (en caso de que la noticia no sea sensible).\n    No omitas datos importantes. Toma en cuenta para contexto que la noticia es de El Heraldo de Chihuahua, por lo que puede que sea o no noticia local.\n    Incluye de 1 a 2 emojis (para título y párrafo, pero que sean respetuosos si es tema sensible). \n    No respondas nada más que el copy: \"" ++ combinedText ++ "\"\n    "

/-- The three target platforms of the generate flow. -/
inductive Platform where
  | facebook
  | twitter
  | wpp
deriving Repr, DecidableEq

/-- One outbound call performed by a handler, in program order.  A generation
call is recorded as a start event when it is launched and an end event when
its awaited result is available. -/
inductive Event where
  | fetchEv (url : String)
  | embedEv (text : String)
  | queryEv (topK : Nat)
  | genStartEv (p : Platform)
  | genEndEv (p : Platform)
  | upsertEv (id noticia copy : String)
  | shortenEv (url : String)
deriving Repr, DecidableEq

/-- The JSON body of a handler response. -/
inductive RespBody where
  | errorBody (error : String)
  | messageBody (message : String)
  | copiesBody (facebook twitter wpp : String) (foundCopies : List SimilarCopy)
  | matchBody (id : String) (score : Int) (metadata : Option MatchMetadata)
deriving Repr, DecidableEq

/-- Whether the response body is a JSON object with an `error` field. -/
def RespBody.hasErrorField : RespBody → Bool
  | .errorBody _ => true
  | _ => false

/-- The `twitter` field of a copies body, when present. -/
def RespBody.twitterField : RespBody → Option String
  | .copiesBody _ t _ _ => some t
  | _ => none

/-- The `foundCopies` field of a copies body, when present. -/
def RespBody.foundCopiesField : RespBody → Option (List SimilarCopy)
  | .copiesBody _ _ _ f => some f
  | _ => none

/-- An HTTP response: status code and JSON body. -/
structure HttpResponse where
  status : Nat
  body : RespBody
deriving Repr, DecidableEq

/-- Environment of a `POST /generate-copies` request: the settled results of
each external collaborator it may consult.  `fetched` is the fetched page
(`none` models a failed fetch); the oracles are keyed by the argument the
code passes them. -/
structure GenEnv where
  fetched : Option HtmlMeta
  hf : String → Except Unit HfValue
  pineconeQuery : Nat → HfValue → Except Unit QueryResults
  gemini : String → Except Unit GenResult
  bitly : String → Except Unit String

/-- The generic error body of a failed generate-copies request. -/
def genError : HttpResponse :=
  { status := 500, body := .errorBody "Hubo un error al generar los copys." }

/-- Embeds `app.post("/generate-copies")` (src/index.js:138-269) as a pure
function from environment and request body (`url` field) to the HTTP response
and the trace of outbound calls, in program order.  Any stage failure lands
in the handler's catch, yielding the generic 500 body with the pipeline
aborted, exactly as in the source. -/
def postGenerateCopies (env : GenEnv) (url? : Option String) :
    HttpResponse × List Event :=
  if !(jsTruthy url?) then
    ({ status := 400, body := .errorBody "La URL es obligatoria." }, [])
  else
    let url := url?.getD ""
    let tr1 := [Event.fetchEv url]
    match getTitleAndDescription env.fetched with
    | .error _ => (genError, tr1)
    | .ok content =>
      let title := content.title
      let descr := content.description
      let combinedText := title ++ ". " ++ descr
      let tr2 := tr1 ++ [Event.embedEv title]
      match getEmbedding (env.hf title) with
      | .error _ => (genError, tr2)
      | .ok fbVector =>
        let tr3 := tr2 ++ [Event.queryEv 3]
        match env.pineconeQuery 3 fbVector with
        | .error _ => (genError, tr3)
        | .ok results =>
          let similares := similaresOf results
          let referencesFb := referencesFbOf similares
          let tr4 := tr3 ++ [Event.genStartEv .facebook]
          match env.gemini (fbPrompt referencesFb title) with
          | .error _ => (genError, tr4)
          | .ok fbResp =>
            let facebookCopy := jsTrim (extractTextOrDefault fbResp)
            let tr5 := tr4 ++ [Event.genEndEv .facebook, Event.genStartEv .twitter]
            match env.gemini (twitterPrompt combinedText) with
            | .error _ => (genError, tr5)
            | .ok twResp =>
              let twitterText := jsTrim (extractTextOrDefault twResp)
              let twitterCopyFinal := twitterText ++ "\n" ++ url
              let tr6 := tr5 ++ [Event.genEndEv .twitter, Event.genStartEv .wpp]
              match env.gemini (wppPrompt combinedText) with
              | .error _ => (genError, tr6)
              | .ok wppResp =>
                let wppText := jsTrim (extractTextOrDefault wppResp)
                let tr7 := tr6 ++ [Event.genEndEv .wpp, Event.shortenEv url]
                match shortenUrl env.bitly url with
                | .error _ => (genError, tr7)
                | .ok shortUrl =>
                  let wppCopyFinal := wppText ++ " Lee más aquí👉 " ++ shortUrl
                  ({ status := 200,
                     body := .copiesBody facebookCopy twitterCopyFinal wppCopyFinal similares },
                   tr7)

/-- An entry written to the similarity store by the index flow
(src/index.js:118-126): a time-derived string id, the embedding vector and
the `{ noticia, copy }` metadata. -/
structure IndexedEntry where
  id : String
  values : HfValue
  noticia : String
  copy : String

/-- Environment of a `POST /indexar` request: the embedding oracle, the
`Date.now()` reading taken while building the upsert payload, and whether
the Pinecone upsert call succeeds. -/
structure IndexEnv where
  hf : String → Except Unit HfValue
  now : Nat
  upsertOk : Bool

/-- Embeds `app.post("/indexar")` (src/index.js:107-133): response, trace,
and the list of entries written to the store by this request. -/
def postIndexar (env : IndexEnv) (noticia? copy? : Option String) :
    HttpResponse × List Event × List IndexedEntry :=
  if !(jsTruthy noticia?) || !(jsTruthy copy?) then
    ({ status := 400, body := .errorBody "La \x27noticia\x27 y el \x27copy\x27 son obligatorios." },
     [], [])
  else
    let noticia := noticia?.getD ""
    let copy := copy?.getD ""
    let tr1 := [Event.embedEv noticia]
    match getEmbedding (env.hf noticia) with
    | .error _ =>
      ({ status := 500, body := .errorBody "Hubo un error al indexar la noticia." }, tr1, [])
    | .ok vector =>
      let entry : IndexedEntry :=
        { id := Nat.repr env.now, values := vector, noticia := noticia, copy := copy }
      let tr2 := tr1 ++ [Event.upsertEv entry.id noticia copy]
      if env.upsertOk then
        ({ status := 200, body := .messageBody "Noticia indexada exitosamente." }, tr2, [entry])
      else
        ({ status := 500, body := .errorBody "Hubo un error al indexar la noticia." }, tr2, [])

/-- Environment of a `POST /buscar_similar` request. -/
structure SearchEnv where
  hf : String → Except Unit HfValue
  pineconeQuery : Nat → HfValue → Except Unit QueryResults

/-- Embeds `app.post("/buscar_similar")` (src/index.js:274-302). -/
def postBuscarSimilar (env : SearchEnv) (texto? : Option String) :
    HttpResponse × List Event :=
  if !(jsTruthy texto?) then
    ({ status := 400,
       body := .errorBody "Se requiere un campo \x27texto\x27 para buscar similitud." }, [])
  else
    let texto := texto?.getD ""
    let tr1 := [Event.embedEv texto]
    match getEmbedding (env.hf texto) with
    | .error _ =>
      ({ status := 500, body := .errorBody "Hubo un error al buscar la similitud." }, tr1)
    | .ok vector =>
      let tr2 := tr1 ++ [Event.queryEv 1]
      match env.pineconeQuery 1 vector with
      | .error _ =>
        ({ status := 500, body := .errorBody "Hubo un error al buscar la similitud." }, tr2)
      | .ok results =>
        match results.«matches» with
        | none =>
          ({ status := 404, body := .errorBody "No se encontraron coincidencias similares." }, tr2)
        | some [] =>
          ({ status := 404, body := .errorBody "No se encontraron coincidencias similares." }, tr2)
        | some (bestMatch :: _) =>
          ({ status := 200, body := .matchBody bestMatch.id bestMatch.score bestMatch.metadata },
           tr2)

/-- Whether an event is the launch of a generation call. -/
def Event.isGenStart : Event → Bool
  | .genStartEv _ => true
  | _ => false

/-- Whether an event is the completion of a generation call. -/
def Event.isGenEnd : Event → Bool
  | .genEndEv _ => true
  | _ => false

/-- Whether an event belongs to a generation call. -/
def Event.isGen (e : Event) : Bool := e.isGenStart || e.isGenEnd

/-- Every outbound call other than the initial HTML fetch. -/
def Event.isDownstreamCall : Event → Bool
  | .fetchEv _ => false
  | _ => true

/-- A trace launches its generation calls concurrently when every generation
start occurs before any generation end: after the first completion no further
generation call is launched. -/
def launchedConcurrently (tr : List Event) : Bool :=
  ((tr.dropWhile fun e => !e.isGenEnd).filter Event.isGenStart).isEmpty

/-- The `facebook` field of a copies body, when present. -/
def RespBody.facebookField : RespBody → Option String
  | .copiesBody f _ _ _ => some f
  | _ => none

/-- A concrete embedding vector used in concrete scenarios. -/
def vec1 : HfValue := .arr [.num 1]

/-- A concrete fetched page with both OpenGraph tags present. -/
def pageTD : HtmlMeta :=
  { ogTitle := some "Testtitle", ogDescription := some "Testdesc", pageTitle := none }

/-- A generation result carrying no candidate at all. -/
def emptyGen : GenResult := { response := none }

/-- Concrete generate-flow environment: every call succeeds but the model
returns no usable candidate text. -/
def envNoCandidate : GenEnv :=
  { fetched := some pageTD
    hf := fun _ => .ok vec1
    pineconeQuery := fun _ _ => .ok { «matches» := some [] }
    gemini := fun _ => .ok emptyGen
    bitly := fun _ => .ok "https://bit.ly/x" }

/-- Concrete generate-flow environment: the generative-model call fails
(transport failure). -/
def envGenFails : GenEnv :=
  { fetched := some pageTD
    hf := fun _ => .ok vec1
    pineconeQuery := fun _ _ => .ok { «matches» := some [] }
    gemini := fun _ => .error ()
    bitly := fun _ => .ok "https://bit.ly/x" }

/-- Concrete generate-flow environment: the HTML fetch fails. -/
def envFetchFails : GenEnv :=
  { fetched := none
    hf := fun _ => .error ()
    pineconeQuery := fun _ _ => .error ()
    gemini := fun _ => .error ()
    bitly := fun _ => .error () }

/-- Concrete generate-flow environment: every call succeeds and the model
returns a fixed text for every prompt. -/
def envAllOk : GenEnv :=
  { fetched := some pageTD
    hf := fun _ => .ok vec1
    pineconeQuery := fun _ _ => .ok { «matches» := some [] }
    gemini := fun _ => .ok (mkGenResult "GEN")
    bitly := fun _ => .ok "https://bit.ly/x" }

/-- Concrete generate-flow environment: every call succeeds and the model
returns a distinct fixed text for each of the three platform prompts. -/
def envPromptKeyed : GenEnv :=
  { fetched := some pageTD
    hf := fun _ => .ok vec1
    pineconeQuery := fun _ _ => .ok { «matches» := some [] }
    gemini := fun p =>
      if p = twitterPrompt "Testtitle. Testdesc" then .ok (mkGenResult " COPY TW ")
      else if p = wppPrompt "Testtitle. Testdesc" then .ok (mkGenResult " COPY WPP ")
      else .ok (mkGenResult " COPY FB ")
    bitly := fun _ => .ok "https://bit.ly/abc" }

/-- Concrete similarity-search environment over an empty store. -/
def searchEnvEmpty : SearchEnv :=
  { hf := fun _ => .ok vec1, pineconeQuery := fun _ _ => .ok { «matches» := some [] } }

/-- Concrete index-flow environment with time reading 1000. -/
def idxEnvA : IndexEnv := { hf := fun _ => .ok vec1, now := 1000, upsertOk := true }

/-- Concrete index-flow environment with time reading 1001. -/
def idxEnvB : IndexEnv := { hf := fun _ => .ok vec1, now := 1001, upsertOk := true }

/-- The entry written by `idxEnvA`. -/
def entA : IndexedEntry := { id := Nat.repr 1000, values := vec1, noticia := "n", copy := "c" }

/-- The entry written by `idxEnvB`. -/
def entB : IndexedEntry := { id := Nat.repr 1001, values := vec1, noticia := "n", copy := "c" }

/-- Decimal value of a digit character produced by `Nat.digitChar`. -/
def decodeDigit (c : Char) : Nat := c.toNat - 48

/-- Decode a big-endian decimal digit string. -/
def decodeDigits (l : List Char) : Nat :=
  l.foldl (fun a c => 10 * a + decodeDigit c) 0

lemma decodeDigit_digitChar : ∀ d < 10, decodeDigit (Nat.digitChar d) = d := by decide

lemma toDigitsCore_acc (f : Nat) : ∀ (n : Nat) (ds : List Char),
    Nat.toDigitsCore 10 f n ds = Nat.toDigitsCore 10 f n [] ++ ds := by
  induction f with
  | zero => intro n ds; simp [Nat.toDigitsCore]
  | succ f ih =>
    intro n ds
    simp only [Nat.toDigitsCore]
    by_cases h : n / 10 = 0
    · simp [h]
    · simp only [h, if_false]
      rw [ih (n / 10) (Nat.digitChar (n % 10) :: ds), ih (n / 10) [Nat.digitChar (n % 10)]]
      simp

lemma decodeDigits_append (xs : List Char) (c : Char) :
    decodeDigits (xs ++ [c]) = 10 * decodeDigits xs + decodeDigit c := by
  simp [decodeDigits, List.foldl_append]

lemma decode_toDigitsCore : ∀ (f n : Nat), n < 10 ^ f →
    decodeDigits (Nat.toDigitsCore 10 f n []) = n := by
  intro f
  induction f with
  | zero =>
    intro n h
    have hn : n = 0 := by simpa using h
    subst hn; rfl
  | succ f ih =>
    intro n h
    by_cases h0 : n / 10 = 0
    · have hn : n < 10 := (Nat.div_eq_zero_iff (by norm_num)).mp h0
      simp only [Nat.toDigitsCore, h0, if_true]
      show decodeDigits [Nat.digitChar (n % 10)] = n
      have : decodeDigits [Nat.digitChar (n % 10)] = decodeDigit (Nat.digitChar (n % 10)) := by
        simp [decodeDigits]
      rw [this, decodeDigit_digitChar (n % 10) (Nat.mod_lt n (by norm_num)),
        Nat.mod_eq_of_lt hn]
    · simp only [Nat.toDigitsCore, h0, if_false]
      rw [toDigitsCore_acc, decodeDigits_append,
        ih (n / 10) ((Nat.div_lt_iff_lt_mul (by norm_num : 0 < 10)).mpr
          (by rw [← pow_succ]; exact h)),
        decodeDigit_digitChar (n % 10) (Nat.mod_lt n (by norm_num)),
        Nat.div_add_mod n 10]

lemma decode_toDigits (n : Nat) : decodeDigits (Nat.toDigits 10 n) = n := by
  have h : n < 10 ^ (n + 1) :=
    lt_of_lt_of_le (Nat.lt_pow_self (by norm_num) n)
      (Nat.pow_le_pow_right (by norm_num) (Nat.le_succ n))
  exact decode_toDigitsCore (n + 1) n h

lemma natReprInjective : Function.Injective Nat.repr := by
  intro m n h
  have hd : Nat.toDigits 10 m = Nat.toDigits 10 n := by
    have h2 := congrArg String.data h
    simpa [Nat.repr, List.asString] using h2
  have h3 := congrArg decodeDigits hd
  simpa [decode_toDigits] using h3

lemma jsTruthy_some {s : String} (h : s.isEmpty = false) : jsTruthy (some s) = true := by
  simp [jsTruthy, h]

lemma extractText_mk (t : String) (h : t.isEmpty = false) :
    extractTextOrDefault (mkGenResult t) = t := by
  simp [extractTextOrDefault, mkGenResult, candidateText, jsOrStr, h]

lemma extractText_no_usable {r : GenResult} (h : jsTruthy (candidateText r) = false) :
    extractTextOrDefault r = "Texto no disponible" := by
  unfold extractTextOrDefault jsOrStr
  cases hct : candidateText r with
  | none => rfl
  | some t =>
    rw [hct] at h
    have ht : t.isEmpty = true := by simpa [jsTruthy] using h
    simp [ht]

lemma postGenerateCopies_success (env : GenEnv) (u : String) (cr : ContentRecord)
    (v : HfValue) (qr : QueryResults) (r1 r2 r3 : GenResult) (s : String)
    (hu : u.isEmpty = false)
    (hf : getTitleAndDescription env.fetched = .ok cr)
    (he : getEmbedding (env.hf cr.title) = .ok v)
    (hq : env.pineconeQuery 3 v = .ok qr)
    (hg1 : env.gemini (fbPrompt (referencesFbOf (similaresOf qr)) cr.title) = .ok r1)
    (hg2 : env.gemini (twitterPrompt (cr.title ++ ". " ++ cr.description)) = .ok r2)
    (hg3 : env.gemini (wppPrompt (cr.title ++ ". " ++ cr.description)) = .ok r3)
    (hb : env.bitly (u ++ "?utm_source=whatsapp&utm_medium=social&utm_campaign=canal") = .ok s) :
    postGenerateCopies env (some u) =
      ({ status := 200,
         body := .copiesBody (jsTrim (extractTextOrDefault r1))
           (jsTrim (extractTextOrDefault r2) ++ "\n" ++ u)
           (jsTrim (extractTextOrDefault r3) ++ " Lee más aquí👉 " ++ s)
           (similaresOf qr) },
       [Event.fetchEv u, Event.embedEv cr.title, Event.queryEv 3,
        Event.genStartEv .facebook, Event.genEndEv .facebook,
        Event.genStartEv .twitter, Event.genEndEv .twitter,
        Event.genStartEv .wpp, Event.genEndEv .wpp, Event.shortenEv u]) := by
  simp [postGenerateCopies, shortenUrl, jsTruthy_some hu, hf, he, hq, hg1, hg2, hg3, hb]

lemma postGenerateCopies_extractFail (env : GenEnv) (u msg : String)
    (hu : u.isEmpty = false)
    (hf : getTitleAndDescription env.fetched = .error msg) :
    postGenerateCopies env (some u) = (genError, [Event.fetchEv u]) := by
  simp [postGenerateCopies, jsTruthy_some hu, hf]

lemma postGenerateCopies_fbGenFail (env : GenEnv) (u : String) (cr : ContentRecord)
    (v : HfValue) (qr : QueryResults)
    (hu : u.isEmpty = false)
    (hf : getTitleAndDescription env.fetched = .ok cr)
    (he : getEmbedding (env.hf cr.title) = .ok v)
    (hq : env.pineconeQuery 3 v = .ok qr)
    (hg1 : env.gemini (fbPrompt (referencesFbOf (similaresOf qr)) cr.title) = .error ()) :
    postGenerateCopies env (some u) =
      (genError,
       [Event.fetchEv u, Event.embedEv cr.title, Event.queryEv 3,
        Event.genStartEv .facebook]) := by
  simp [postGenerateCopies, jsTruthy_some hu, hf, he, hq, hg1]

lemma postIndexar_written_id (env : IndexEnv) (n? c? : Option String) (ent : IndexedEntry)
    (h : (postIndexar env n? c?).2.2 = [ent]) : ent.id = Nat.repr env.now := by
  by_cases hg : (!(jsTruthy n?) || !(jsTruthy c?)) = true
  · simp [postIndexar, hg] at h
  · simp only [postIndexar, hg, if_false] at h
    cases he : getEmbedding (env.hf (n?.getD "")) with
    | error e => simp [he] at h
    | ok vec =>
      simp only [he] at h
      cases hup : env.upsertOk with
      | false => simp [hup] at h
      | true =>
        simp only [hup, if_true, Bool.false_eq_true, if_false, List.cons.injEq, and_true] at h
        rw [← h]

/-- Claim C1, counterexample: a fetched page whose HTML lacks `og:title` but
has a generic page-title element makes the extractor fail (no fallback), and
a page with `og:title` but no description metadata also makes it fail (the
description is not optional), contradicting the claim on both counts. -/
theorem C1_counterexample :
    getTitleAndDescription
        (some { ogTitle := none, ogDescription := some "Una descripción",
                pageTitle := some "Título de la página" }) =
      .error "No se pudo extraer los meta tags de la noticia." ∧
    getTitleAndDescription
        (some { ogTitle := some "Título OG", ogDescription := none,
                pageTitle := some "Título de la página" }) =
      .error "No se pudo extraer los meta tags de la noticia." :=
  ⟨rfl, rfl⟩

/-- Claim C1, amended: the Content Extractor never consults the generic
page-title element and treats the description metadata as required: it
succeeds exactly when both `og:title` and `og:description` are present and
non-empty, returning both trimmed, and fails when the HTTP fetch fails or
either tag is missing or empty. -/
theorem C1_extractor_requires_both_og_tags (m : HtmlMeta) (t : Option String) :
    getTitleAndDescription none =
      .error "No se pudo extraer los meta tags de la noticia." ∧
    getTitleAndDescription (some { m with pageTitle := t }) =
      getTitleAndDescription (some m) ∧
    getTitleAndDescription (some m) =
      (if jsTruthy m.ogTitle && jsTruthy m.ogDescription then
        Except.ok { title := jsTrim (m.ogTitle.getD "")
                    description := jsTrim (m.ogDescription.getD "") }
      else Except.error "No se pudo extraer los meta tags de la noticia.") := by
  refine ⟨rfl, rfl, ?_⟩
  simp only [getTitleAndDescription]
  cases h1 : jsTruthy m.ogTitle <;> cases h2 : jsTruthy m.ogDescription <;> simp

/-- Claim C3, counterexample: the provider response `["x"]` is an array but
not a numeric-vector shape, yet the Embedding Client returns it unchanged,
so the client does not validate element shape (and never extracts a first
row from a nested response). -/
theorem C3_counterexample :
    getEmbedding (.ok (.arr [.str "x"])) = .ok (.arr [.str "x"]) ∧
    specNumericVectorShape (.arr [.str "x"]) = false ∧
    getEmbedding (.ok (.arr [.arr [.num 1], .arr [.num 2]])) =
      .ok (.arr [.arr [.num 1], .arr [.num 2]]) :=
  ⟨rfl, rfl, rfl⟩

/-- Claim C3, amended: the Embedding Client returns exactly the provider
response whenever it is an array — with no validation of the element shape
and no first-row extraction — and raises the embedding error on a non-array
response or a transport failure. -/
theorem C3_embedding_accepts_any_array (r : Except Unit HfValue) (v : HfValue) :
    (getEmbedding r = .ok v ↔ r = .ok v ∧ v.isArray = true) ∧
    getEmbedding (.error ()) = .error "Error generando embeddings." := by
  refine ⟨⟨?_, ?_⟩, rfl⟩
  · intro h
    cases r with
    | error e => simp [getEmbedding] at h
    | ok w =>
      by_cases hw : w.isArray
      · simp only [getEmbedding, hw, if_true] at h
        cases h
        exact ⟨rfl, hw⟩
      · simp [getEmbedding, hw] at h
  · rintro ⟨rfl, hv⟩
    simp [getEmbedding, hv]

/-- Claim C5: a request omitting a required body field — `noticia` or `copy`
for /indexar, `url` for /generate-copies, `texto` for /buscar_similar — gets
a 400 response whose JSON body carries an `error` field, whatever the
environment and the other fields. -/
theorem C5_missing_required_field_gives_400 (ienv : IndexEnv) (genv : GenEnv)
    (senv : SearchEnv) (x : Option String) :
    ((postIndexar ienv none x).1.status = 400 ∧
      (postIndexar ienv none x).1.body.hasErrorField = true) ∧
    ((postIndexar ienv x none).1.status = 400 ∧
      (postIndexar ienv x none).1.body.hasErrorField = true) ∧
    ((postGenerateCopies genv none).1.status = 400 ∧
      (postGenerateCopies genv none).1.body.hasErrorField = true) ∧
    ((postBuscarSimilar senv none).1.status = 400 ∧
      (postBuscarSimilar senv none).1.body.hasErrorField = true) := by
  refine ⟨⟨rfl, rfl⟩, ⟨?_, ?_⟩, ⟨rfl, rfl⟩, ⟨rfl, rfl⟩⟩ <;>
    (unfold postIndexar; cases hx : jsTruthy x <;> rfl)

/-- Claim C10: a required body field that is present but equal to the empty
string is rejected exactly like a missing field — the handlers test JS
truthiness, not presence — with a 400 status and an `error` field. -/
theorem C10_empty_string_field_gives_400 (ienv : IndexEnv) (genv : GenEnv)
    (senv : SearchEnv) (x : Option String) :
    (postIndexar ienv (some "") x = postIndexar ienv none x) ∧
    (postIndexar ienv x (some "") = postIndexar ienv x none) ∧
    (postGenerateCopies genv (some "") = postGenerateCopies genv none) ∧
    (postBuscarSimilar senv (some "") = postBuscarSimilar senv none) ∧
    ((postIndexar ienv (some "") x).1.status = 400 ∧
      (postIndexar ienv (some "") x).1.body.hasErrorField = true) ∧
    ((postIndexar ienv x (some "")).1.status = 400 ∧
      (postIndexar ienv x (some "")).1.body.hasErrorField = true) ∧
    ((postGenerateCopies genv (some "")).1.status = 400 ∧
      (postGenerateCopies genv (some "")).1.body.hasErrorField = true) ∧
    ((postBuscarSimilar senv (some "")).1.status = 400 ∧
      (postBuscarSimilar senv (some "")).1.body.hasErrorField = true) := by
  refine ⟨rfl, ?_, rfl, rfl, ⟨rfl, rfl⟩, ⟨?_, ?_⟩, ⟨rfl, rfl⟩, ⟨rfl, rfl⟩⟩ <;>
    (unfold postIndexar; cases hx : jsTruthy x <;> rfl)

/-- Claim C4: when the similarity query returns zero matches and every other
stage succeeds, the generate flow answers 200 with an empty reference set
(`foundCopies = []`), and the similarity-search endpoint answers 404 with an
`error` body; neither flow turns an empty query result into a 500. -/
theorem C4_empty_match_set_not_500 (env : GenEnv) (senv : SearchEnv) (u texto : String)
    (cr : ContentRecord) (v w : HfValue) (r1 r2 r3 : GenResult) (s : String)
    (hu : u.isEmpty = false)
    (hf : getTitleAndDescription env.fetched = .ok cr)
    (he : getEmbedding (env.hf cr.title) = .ok v)
    (hq : env.pineconeQuery 3 v = .ok { «matches» := some [] })
    (hg1 : env.gemini (fbPrompt "" cr.title) = .ok r1)
    (hg2 : env.gemini (twitterPrompt (cr.title ++ ". " ++ cr.description)) = .ok r2)
    (hg3 : env.gemini (wppPrompt (cr.title ++ ". " ++ cr.description)) = .ok r3)
    (hb : env.bitly (u ++ "?utm_source=whatsapp&utm_medium=social&utm_campaign=canal") = .ok s)
    (ht : texto.isEmpty = false)
    (hse : getEmbedding (senv.hf texto) = .ok w)
    (hsq : senv.pineconeQuery 1 w = .ok { «matches» := some [] }) :
    ((postGenerateCopies env (some u)).1.status = 200 ∧
      (postGenerateCopies env (some u)).1.body.foundCopiesField = some []) ∧
    ((postBuscarSimilar senv (some texto)).1.status = 404 ∧
      (postBuscarSimilar senv (some texto)).1.body.hasErrorField = true) := by
  have hg1x : env.gemini
      (fbPrompt (referencesFbOf (similaresOf { «matches» := some [] })) cr.title) = .ok r1 := hg1
  rw [postGenerateCopies_success env u cr v { «matches» := some [] } r1 r2 r3 s hu hf he hq
    hg1x hg2 hg3 hb]
  refine ⟨⟨rfl, rfl⟩, ?_, ?_⟩ <;>
    simp [postBuscarSimilar, jsTruthy_some ht, hse, hsq, RespBody.hasErrorField]

/-- Claim C4 witness: a concrete run of both flows over an empty store. -/
theorem C4_witness :
    ((postGenerateCopies envAllOk (some "https://example.com/n")).1.status = 200 ∧
      (postGenerateCopies envAllOk (some "https://example.com/n")).1.body.foundCopiesField =
        some []) ∧
    ((postBuscarSimilar searchEnvEmpty (some "hola")).1.status = 404 ∧
      (postBuscarSimilar searchEnvEmpty (some "hola")).1.body.hasErrorField = true) :=
  C4_empty_match_set_not_500 envAllOk searchEnvEmpty "https://example.com/n" "hola"
    ⟨"Testtitle", "Testdesc"⟩ vec1 vec1 (mkGenResult "GEN") (mkGenResult "GEN")
    (mkGenResult "GEN") "https://bit.ly/x" rfl rfl rfl rfl rfl rfl rfl rfl rfl rfl rfl

/-- Claim C6: when the Content Extractor fails (failed fetch or missing meta
tags), the generate flow answers with the generic 500 error and the call
trace holds only the HTML fetch: no embedding, similarity-store or
generation call is performed for that request. -/
theorem C6_extractor_failure_fail_fast (env : GenEnv) (u msg : String)
    (hu : u.isEmpty = false)
    (hf : getTitleAndDescription env.fetched = .error msg) :
    (postGenerateCopies env (some u)).1 = genError ∧
    (postGenerateCopies env (some u)).2 = [Event.fetchEv u] ∧
    ((postGenerateCopies env (some u)).2.all fun e => !e.isDownstreamCall) = true := by
  rw [postGenerateCopies_extractFail env u msg hu hf]
  exact ⟨rfl, rfl, rfl⟩

/-- Claim C6 witness: a concrete run whose HTML fetch fails. -/
theorem C6_witness :
    (postGenerateCopies envFetchFails (some "https://example.com/n")).1 = genError ∧
    (postGenerateCopies envFetchFails (some "https://example.com/n")).2 =
      [Event.fetchEv "https://example.com/n"] ∧
    ((postGenerateCopies envFetchFails (some "https://example.com/n")).2.all
        fun e => !e.isDownstreamCall) = true :=
  C6_extractor_failure_fail_fast envFetchFails "https://example.com/n"
    "No se pudo extraer los meta tags de la noticia." rfl rfl

/-- Claim C7: a generation result with no usable candidate text yields the
fixed placeholder instead of raising — a run whose Facebook generation
returns no candidate still answers 200 with the placeholder as the Facebook
copy — while a transport failure of the generation call makes the flow raise
(surfaced as the generic 500). -/
theorem C7_placeholder_on_empty_candidate (env env2 : GenEnv) (u u2 : String)
    (cr cr2 : ContentRecord) (v v2 : HfValue) (qr qr2 : QueryResults)
    (r1 r2 r3 : GenResult) (s : String)
    (hr1 : jsTruthy (candidateText r1) = false)
    (hu : u.isEmpty = false)
    (hf : getTitleAndDescription env.fetched = .ok cr)
    (he : getEmbedding (env.hf cr.title) = .ok v)
    (hq : env.pineconeQuery 3 v = .ok qr)
    (hg1 : env.gemini (fbPrompt (referencesFbOf (similaresOf qr)) cr.title) = .ok r1)
    (hg2 : env.gemini (twitterPrompt (cr.title ++ ". " ++ cr.description)) = .ok r2)
    (hg3 : env.gemini (wppPrompt (cr.title ++ ". " ++ cr.description)) = .ok r3)
    (hb : env.bitly (u ++ "?utm_source=whatsapp&utm_medium=social&utm_campaign=canal") = .ok s)
    (hu2 : u2.isEmpty = false)
    (hf2 : getTitleAndDescription env2.fetched = .ok cr2)
    (he2 : getEmbedding (env2.hf cr2.title) = .ok v2)
    (hq2 : env2.pineconeQuery 3 v2 = .ok qr2)
    (hg12 : env2.gemini (fbPrompt (referencesFbOf (similaresOf qr2)) cr2.title) = .error ()) :
    extractTextOrDefault r1 = "Texto no disponible" ∧
    (postGenerateCopies env (some u)).1.status = 200 ∧
    (postGenerateCopies env (some u)).1.body.facebookField =
      some (jsTrim "Texto no disponible") ∧
    (postGenerateCopies env2 (some u2)).1 = genError := by
  have hext := extractText_no_usable hr1
  refine ⟨hext, ?_, ?_, ?_⟩
  · rw [postGenerateCopies_success env u cr v qr r1 r2 r3 s hu hf he hq hg1 hg2 hg3 hb]
  · rw [postGenerateCopies_success env u cr v qr r1 r2 r3 s hu hf he hq hg1 hg2 hg3 hb,
      hext]
    rfl
  · rw [postGenerateCopies_fbGenFail env2 u2 cr2 v2 qr2 hu2 hf2 he2 hq2 hg12]

/-- Claim C7 witness: a concrete run whose model returns no candidate, and a
concrete run whose model call fails. -/
theorem C7_witness :
    extractTextOrDefault emptyGen = "Texto no disponible" ∧
    (postGenerateCopies envNoCandidate (some "https://example.com/n")).1.status = 200 ∧
    (postGenerateCopies envNoCandidate (some "https://example.com/n")).1.body.facebookField =
      some (jsTrim "Texto no disponible") ∧
    (postGenerateCopies envGenFails (some "https://example.com/n")).1 = genError :=
  C7_placeholder_on_empty_candidate envNoCandidate envGenFails
    "https://example.com/n" "https://example.com/n"
    ⟨"Testtitle", "Testdesc"⟩ ⟨"Testtitle", "Testdesc"⟩ vec1 vec1
    { «matches» := some [] } { «matches» := some [] } emptyGen emptyGen emptyGen
    "https://bit.ly/x" rfl rfl rfl rfl rfl rfl rfl rfl rfl rfl rfl rfl rfl rfl

/-- Claim C8: two successful index requests whose `Date.now()` readings
differ write entries with distinct ids, so time-derived ids are unique under
single-writer, non-colliding-timestamp conditions. -/
theorem C8_distinct_time_readings_distinct_ids (e1 e2 : IndexEnv)
    (n1 c1 n2 c2 : Option String) (ent1 ent2 : IndexedEntry)
    (h1 : (postIndexar e1 n1 c1).2.2 = [ent1])
    (h2 : (postIndexar e2 n2 c2).2.2 = [ent2])
    (hne : e1.now ≠ e2.now) :
    ent1.id ≠ ent2.id := by
  rw [postIndexar_written_id e1 n1 c1 ent1 h1, postIndexar_written_id e2 n2 c2 ent2 h2]
  exact fun hh => hne (natReprInjective hh)

/-- Claim C8 witness: two concrete index runs at timestamps 1000 and 1001. -/
theorem C8_witness : entA.id ≠ entB.id :=
  C8_distinct_time_readings_distinct_ids idxEnvA idxEnvB (some "n") (some "c")
    (some "n") (some "c") entA entB rfl rfl (by decide)

set_option maxRecDepth 100000 in
/-- Claim C2, counterexample: with the model returning fixed texts for the
three platform prompts, the response body does not hold the three trimmed
texts — the code appends the request URL to the twitter copy and a fixed
suffix plus the shortened URL to the WhatsApp copy. -/
theorem C2_counterexample :
    (postGenerateCopies envPromptKeyed (some "https://example.com/n")).1.body =
      .copiesBody "COPY FB" "COPY TW\nhttps://example.com/n"
        "COPY WPP Lee más aquí👉 https://bit.ly/abc" [] ∧
    "COPY TW\nhttps://example.com/n" ≠ "COPY TW" ∧
    "COPY WPP Lee más aquí👉 https://bit.ly/abc" ≠ "COPY WPP" :=
  ⟨rfl, by decide, by decide⟩

/-- Claim C2, amended: with the model returning fixed texts keyed by the
three platform prompts, the response holds the facebook text trimmed, the
twitter text trimmed with a newline and the request URL appended, and the
WhatsApp text trimmed with the fixed read-more suffix and the shortened URL
appended; each text is bound to its platform by the prompt it answers, and
the three calls run sequentially, so completion order cannot reassign
them. -/
theorem C2_texts_bound_by_prompt (env : GenEnv) (u : String) (cr : ContentRecord)
    (v : HfValue) (qr : QueryResults) (a b c s : String)
    (hu : u.isEmpty = false)
    (hf : getTitleAndDescription env.fetched = .ok cr)
    (he : getEmbedding (env.hf cr.title) = .ok v)
    (hq : env.pineconeQuery 3 v = .ok qr)
    (hg1 : env.gemini (fbPrompt (referencesFbOf (similaresOf qr)) cr.title) =
      .ok (mkGenResult a))
    (ha : a.isEmpty = false)
    (hg2 : env.gemini (twitterPrompt (cr.title ++ ". " ++ cr.description)) =
      .ok (mkGenResult b))
    (hb2 : b.isEmpty = false)
    (hg3 : env.gemini (wppPrompt (cr.title ++ ". " ++ cr.description)) =
      .ok (mkGenResult c))
    (hc : c.isEmpty = false)
    (hsh : env.bitly (u ++ "?utm_source=whatsapp&utm_medium=social&utm_campaign=canal") =
      .ok s) :
    (postGenerateCopies env (some u)).1 =
      { status := 200
        body := .copiesBody (jsTrim a) (jsTrim b ++ "\n" ++ u)
          (jsTrim c ++ " Lee más aquí👉 " ++ s) (similaresOf qr) } := by
  rw [postGenerateCopies_success env u cr v qr (mkGenResult a) (mkGenResult b)
    (mkGenResult c) s hu hf he hq hg1 hg2 hg3 hsh,
    extractText_mk a ha, extractText_mk b hb2, extractText_mk c hc]

set_option maxRecDepth 100000 in
/-- Claim C2 witness: a concrete run with three distinct prompt-keyed texts. -/
theorem C2_witness :
    (postGenerateCopies envPromptKeyed (some "https://example.com/n")).1 =
      { status := 200
        body := .copiesBody (jsTrim " COPY FB ")
          (jsTrim " COPY TW " ++ "\n" ++ "https://example.com/n")
          (jsTrim " COPY WPP " ++ " Lee más aquí👉 " ++ "https://bit.ly/abc")
          (similaresOf { «matches» := some [] }) } :=
  C2_texts_bound_by_prompt envPromptKeyed "https://example.com/n"
    ⟨"Testtitle", "Testdesc"⟩ vec1 { «matches» := some [] }
    " COPY FB " " COPY TW " " COPY WPP " "https://bit.ly/abc"
    rfl rfl rfl rfl rfl rfl rfl rfl rfl rfl rfl

/-- Claim C9, counterexample: a concrete successful generate-flow run makes
all three generation calls, yet its trace launches a later generation call
after an earlier one has already completed — the calls are not launched
concurrently. -/
theorem C9_counterexample :
    ((postGenerateCopies envAllOk (some "https://example.com/n")).2.filter
        Event.isGenStart).length = 3 ∧
    launchedConcurrently
        (postGenerateCopies envAllOk (some "https://example.com/n")).2 = false :=
  ⟨rfl, rfl⟩

/-- Claim C9, amended: in every generate-flow request that completes with
status 200, the three platform generation calls run sequentially — facebook,
then twitter, then WhatsApp, each awaited before the next is launched — and
all three finish before the response is composed; they are never launched
concurrently. -/
theorem C9_generation_sequential (env : GenEnv) (u? : Option String)
    (h : (postGenerateCopies env u?).1.status = 200) :
    ((postGenerateCopies env u?).2.filter Event.isGen) =
      [Event.genStartEv .facebook, Event.genEndEv .facebook,
       Event.genStartEv .twitter, Event.genEndEv .twitter,
       Event.genStartEv .wpp, Event.genEndEv .wpp] ∧
    launchedConcurrently (postGenerateCopies env u?).2 = false := by
  cases u? with
  | none => simp [postGenerateCopies, jsTruthy] at h
  | some u =>
    cases hue : u.isEmpty with
    | true => simp [postGenerateCopies, jsTruthy, hue] at h
    | false =>
      cases hF : getTitleAndDescription env.fetched with
      | error msg =>
        rw [postGenerateCopies_extractFail env u msg hue hF] at h
        simp [genError] at h
      | ok cr =>
        cases hE : getEmbedding (env.hf cr.title) with
        | error e =>
          simp [postGenerateCopies, jsTruthy, hue, hF, hE, genError] at h
        | ok v =>
          cases hQ : env.pineconeQuery 3 v with
          | error e =>
            simp [postGenerateCopies, jsTruthy, hue, hF, hE, hQ, genError] at h
          | ok qr =>
            cases hG1 : env.gemini (fbPrompt (referencesFbOf (similaresOf qr)) cr.title) with
            | error e =>
              simp [postGenerateCopies, jsTruthy, hue, hF, hE, hQ, hG1, genError] at h
            | ok r1 =>
              cases hG2 : env.gemini (twitterPrompt (cr.title ++ ". " ++ cr.description)) with
              | error e =>
                simp [postGenerateCopies, jsTruthy, hue, hF, hE, hQ, hG1, hG2, genError] at h
              | ok r2 =>
                cases hG3 : env.gemini (wppPrompt (cr.title ++ ". " ++ cr.description)) with
                | error e =>
                  simp [postGenerateCopies, jsTruthy, hue, hF, hE, hQ, hG1, hG2, hG3,
                    genError] at h
                | ok r3 =>
                  cases hB : env.bitly
                      (u ++ "?utm_source=whatsapp&utm_medium=social&utm_campaign=canal") with
                  | error e =>
                    simp [postGenerateCopies, shortenUrl, jsTruthy, hue, hF, hE, hQ, hG1,
                      hG2, hG3, hB, genError] at h
                  | ok s =>
                    rw [postGenerateCopies_success env u cr v qr r1 r2 r3 s hue hF hE hQ
                      hG1 hG2 hG3 hB]
                    exact ⟨rfl, rfl⟩

/-- Claim C9 witness: a concrete successful run. -/
theorem C9_witness :
    ((postGenerateCopies envAllOk (some "https://example.com/n")).2.filter Event.isGen) =
      [Event.genStartEv .facebook, Event.genEndEv .facebook,
       Event.genStartEv .twitter, Event.genEndEv .twitter,
       Event.genStartEv .wpp, Event.genEndEv .wpp] ∧
    launchedConcurrently
        (postGenerateCopies envAllOk (some "https://example.com/n")).2 = false :=
  C9_generation_sequential envAllOk (some "https://example.com/n") rfl

end NewsCopy
